import Mathlib

/-!
Verification development for the QuantaLearn LMS vehicle-telemetry core.

This file gives a shallow embedding, in Lean 4, of the telemetry ingestion
and fuel-anomaly machinery of the repository:

* `utils.py`: `detect_fuel_anomaly`, `calculate_fuel_efficiency`;
* `transport.py`: `receive_telemetry` (HTTP push endpoint) and `check_alerts`
  (rule-based alert engine);
* `mqtt_client.py`: `on_message` (MQTT ingestion path);
* `scheduler.py`: `check_bus_offline` (offline monitor).

Modelling conventions:

* Python floats are modelled as rationals (`ℚ`); all numeric literals used by
  the code (10, -5, 0.5, 1.1, ...) are exactly representable in binary
  floating point, so comparisons agree with the Python behaviour on the
  inputs considered here.
* `datetime` values are modelled as rational numbers of seconds;
  `timedelta.total_seconds()/3600` becomes division by 3600, and
  `timedelta(hours=1)` is the constant 3600.
* A nullable column (`Optional[float]`) is `Option ℚ`; Python truthiness of
  such a value (`if not x`) is `truthy` below, false exactly for `None`
  and `0`.
* The SQLAlchemy session is modelled as an explicit `DB` record holding the
  rows of the tables the core touches; `db.session.add` is a list append.
  Rows carry an `id` equal to the value of an autoincrementing sequence
  (`DB.seq`), mirroring the primary key.  Queries `ORDER BY timestamp DESC`
  leave the order of rows with equal timestamps unspecified in SQL; the
  model breaks such ties by descending `id` (the order produced by a
  descending scan of the `timestamp` index).  The theorems below only rely
  on this ordering at distinct timestamps.
* Free-text columns that no claim observes (`Alert.message`,
  `FuelEvent.details`) are omitted from the row records; `Alert.title` and
  the other discriminating fields are kept verbatim.
* Exceptions are modelled with `Option`/`Except`: a function that can raise
  returns `none`/`.error` on the raising input, and a caller that catches
  the exception (`try`/`except`) selects the fallback value.
-/

namespace Quanta

/-- Severity strings of the source (INFO, WARNING, CRITICAL). -/
inductive Severity where
  | INFO
  | WARNING
  | CRITICAL
deriving DecidableEq, Repr

/-- The fuel-event kinds produced by `detect_fuel_anomaly` (the type key
of the returned dict). -/
inductive FuelEventType where
  | REFUEL
  | THEFT
  | EXCESSIVE_CONSUMPTION
  | IDLE
deriving DecidableEq, Repr

/-- One row of the `telemetry` table (`models.py`, class `Telemetry`).
`timestamp` is seconds; `id` is the autoincrement primary key. -/
structure Telemetry where
  id : ℕ
  bus_id : ℕ
  timestamp : ℚ
  latitude : Option ℚ
  longitude : Option ℚ
  speed_kmh : ℚ
  fuel_level_liters : Option ℚ
  fuel_flow_lph : ℚ
  odometer_km : ℚ
  engine_on : Bool
  heading : Option ℚ
  altitude : Option ℚ
deriving DecidableEq, Repr

/-- One row of the `buses` table (`models.py`, class `Bus`), restricted to
the fields the telemetry core reads. -/
structure Bus where
  id : ℕ
  school_id : ℕ
  is_active : Bool
  fuel_tank_capacity : ℚ
  last_seen : Option ℚ
deriving DecidableEq, Repr

/-- One row of the `fuel_events` table. -/
structure FuelEvent where
  bus_id : ℕ
  timestamp : ℚ
  event_type : FuelEventType
  amount_liters : ℚ
  severity : Severity
deriving DecidableEq, Repr

/-- One row of the `alerts` table (message text omitted, see header). -/
structure Alert where
  bus_id : ℕ
  timestamp : ℚ
  level : Severity
  title : String
  is_acknowledged : Bool
deriving DecidableEq, Repr

/-- Python truthiness of an `Optional[float]`: false for `None` and `0`. -/
def truthy : Option ℚ → Bool
  | none => false
  | some v => v != 0

/-- Result dict of `detect_fuel_anomaly` (keys `type`, `amount`,
`severity`; the free-text `details` key is omitted). -/
structure FuelAnomaly where
  type : FuelEventType
  amount : ℚ
  severity : Severity
deriving DecidableEq, Repr

/-- Shallow embedding of `utils.detect_fuel_anomaly` (utils.py lines
74-121).  The `bus` argument is accepted and ignored, exactly as in the
source.  Returns the anomaly dict, or `none` where the Python returns
`None`. -/
def detect_fuel_anomaly (prev_telemetry curr_telemetry : Telemetry) (bus : Bus) :
    Option FuelAnomaly :=
  if ¬ truthy prev_telemetry.fuel_level_liters ∨ ¬ truthy curr_telemetry.fuel_level_liters then
    none
  else
    let fuel_diff :=
      curr_telemetry.fuel_level_liters.getD 0 - prev_telemetry.fuel_level_liters.getD 0
    let time_diff := (curr_telemetry.timestamp - prev_telemetry.timestamp) / 3600
    if 10 < fuel_diff then
      some ⟨.REFUEL, fuel_diff, .INFO⟩
    else if fuel_diff < -5 ∧ curr_telemetry.speed_kmh = 0 ∧ curr_telemetry.engine_on = false then
      some ⟨.THEFT, |fuel_diff|, .CRITICAL⟩
    else if fuel_diff < -2 ∧ 0 < time_diff ∧ 15 < |fuel_diff| / time_diff then
      some ⟨.EXCESSIVE_CONSUMPTION, |fuel_diff|, .WARNING⟩
    else if curr_telemetry.speed_kmh = 0 ∧ curr_telemetry.engine_on = true ∧
        fuel_diff < -(1/2) ∧ 1/2 < time_diff then
      some ⟨.IDLE, |fuel_diff|, .WARNING⟩
    else
      none

/-- The delta quantities the specification's classifier rules speak about. -/
structure DeltaCtx where
  fuel_diff : ℚ
  elapsed_hours : ℚ
  speed : ℚ
  engine_on : Bool

/-- The fixed ordered rule list of the anomaly classifier as the
specification states it (spec section 4.3).  The flag `idleStrict` selects
the bound of rule 4 on `elapsed_hours`: the claim's wording uses `≥ 0.5`
(`idleStrict = false`), the source uses the strict `> 0.5`
(`idleStrict = true`). -/
def fuelRules (idleStrict : Bool) : List (DeltaCtx → Option (FuelEventType × Severity)) :=
  [ fun c => if 10 < c.fuel_diff then some (.REFUEL, .INFO) else none,
    fun c => if c.fuel_diff < -5 ∧ c.speed = 0 ∧ c.engine_on = false then
        some (.THEFT, .CRITICAL) else none,
    fun c => if c.fuel_diff < -2 ∧ 0 < c.elapsed_hours ∧
        15 < |c.fuel_diff| / c.elapsed_hours then
        some (.EXCESSIVE_CONSUMPTION, .WARNING) else none,
    fun c => if c.speed = 0 ∧ c.engine_on = true ∧ c.fuel_diff < -(1/2) ∧
        (if idleStrict then 1/2 < c.elapsed_hours else 1/2 ≤ c.elapsed_hours) then
        some (.IDLE, .WARNING) else none ]

/-- First-match-wins evaluation of an ordered rule list. -/
def firstMatch {α : Type} : List (DeltaCtx → Option α) → DeltaCtx → Option α
  | [], _ => none
  | r :: rs, c =>
    match r c with
    | some e => some e
    | none => firstMatch rs c

/-- Delta quantities of a consecutive sample pair, as in the claim: fuel
difference in liters, elapsed time in hours, current speed and engine
flag. -/
def deltaCtx (prev curr : Telemetry) : DeltaCtx :=
  ⟨curr.fuel_level_liters.getD 0 - prev.fuel_level_liters.getD 0,
   (curr.timestamp - prev.timestamp) / 3600,
   curr.speed_kmh, curr.engine_on⟩

/-- The classifier as claim C1 words it: the first matching rule of the
fixed ordered list decides the emitted (kind, severity).
`claimC1_classifier false` is the claim verbatim (rule 4 with
`elapsed_hours ≥ 0.5`); `claimC1_classifier true` is the amended version
(rule 4 strict). -/
def claimC1_classifier (idleStrict : Bool) (prev curr : Telemetry) :
    Option (FuelEventType × Severity) :=
  firstMatch (fuelRules idleStrict) (deltaCtx prev curr)

/-- The persistent state the telemetry core touches: the four tables and
the autoincrement sequence for telemetry primary keys. -/
structure DB where
  buses : List Bus
  telemetry : List Telemetry
  fuel_events : List FuelEvent
  alerts : List Alert
  seq : ℕ
deriving DecidableEq, Repr

/-- A raw JSON body / MQTT payload: every field may be absent. -/
structure Payload where
  latitude : Option ℚ
  longitude : Option ℚ
  speed_kmh : Option ℚ
  fuel_level_liters : Option ℚ
  fuel_flow_lph : Option ℚ
  odometer_km : Option ℚ
  engine_on : Option Bool
  heading : Option ℚ
  altitude : Option ℚ
deriving DecidableEq, Repr

/-- The realtime `telemetry_update` message emitted to the school's
SocketIO room after a sample is processed. -/
structure UpdateMsg where
  school_id : ℕ
  bus_id : ℕ
  latitude : Option ℚ
  longitude : Option ℚ
  speed_kmh : ℚ
  fuel_level_liters : Option ℚ
  engine_on : Bool
  timestamp : ℚ
deriving DecidableEq, Repr

/-- Builds the realtime update for a stored row (transport.py lines
196-204; mqtt_client.py lines 93-101 build the identical message). -/
def mkMsg (school : ℕ) (row : Telemetry) : UpdateMsg :=
  ⟨school, row.bus_id, row.latitude, row.longitude, row.speed_kmh,
   row.fuel_level_liters, row.engine_on, row.timestamp⟩

/-- A freshly inserted alert row: `is_acknowledged` defaults to false and
`timestamp` to the current time. -/
def mkAlert (bid : ℕ) (lvl : Severity) (title : String) (now : ℚ) : Alert :=
  ⟨bid, now, lvl, title, false⟩

/-- Row ordering produced by `ORDER BY timestamp DESC`: `a` comes before
`b` when `a` has the later timestamp; equal timestamps are broken by
descending primary key (see the header note on ties). -/
def newerRow (a b : Telemetry) : Prop :=
  b.timestamp < a.timestamp ∨ (a.timestamp = b.timestamp ∧ b.id ≤ a.id)

instance : DecidableRel newerRow := fun a b => by unfold newerRow; infer_instance

/-- All telemetry rows of one vehicle, in insertion order. -/
def busRows (db : DB) (bid : ℕ) : List Telemetry :=
  db.telemetry.filter (fun r => r.bus_id == bid)

/-- The vehicle's telemetry sorted newest-first. -/
def sortedDesc (l : List Telemetry) : List Telemetry :=
  List.insertionSort newerRow l

/-- The query `Telemetry.query.filter_by(bus_id).order_by(timestamp.desc()).offset(1).first()`
used by both ingestion paths to find the comparison partner; because the
session autoflushes, the just-added row takes part in the ordering. -/
def previousTelemetry (db : DB) (bid : ℕ) : Option Telemetry :=
  (sortedDesc (busRows db bid)).get? 1

/-- The query `...order_by(timestamp.desc()).first()`: the newest row. -/
def latestTelemetry (db : DB) (bid : ℕ) : Option Telemetry :=
  (sortedDesc (busRows db bid)).get? 0

/-- Title of the alert created for a WARNING/CRITICAL fuel anomaly: the
f-string interpolating the str.title() form of the kind between the words
Fuel and Detected. -/
def fuelAlertTitle : FuelEventType → String
  | .REFUEL => "Fuel Refuel Detected"
  | .THEFT => "Fuel Theft Detected"
  | .EXCESSIVE_CONSUMPTION => "Fuel Excessive_Consumption Detected"
  | .IDLE => "Fuel Idle Detected"

/-- The anomaly block shared verbatim by both ingestion paths
(transport.py lines 163-184, mqtt_client.py lines 64-87): look up the
comparison partner, classify, and on an anomaly insert a FuelEvent plus,
for WARNING/CRITICAL severity, an Alert. -/
def anomalyStep (bus : Bus) (row : Telemetry) (db : DB) (now : ℚ) : DB :=
  match previousTelemetry db bus.id with
  | none => db
  | some prev =>
    match detect_fuel_anomaly prev row bus with
    | none => db
    | some a =>
      let db1 := { db with fuel_events :=
        db.fuel_events ++ [⟨bus.id, now, a.type, a.amount, a.severity⟩] }
      if a.severity = .WARNING ∨ a.severity = .CRITICAL then
        { db1 with alerts := db1.alerts ++ [mkAlert bus.id a.severity (fuelAlertTitle a.type) now] }
      else
        db1

/-- Shallow embedding of `transport.check_alerts` (transport.py lines
355-396).  The Python computes `fuel_percentage` by dividing
`telemetry.fuel_level_liters` by the tank capacity with no `None` guard;
when the fuel level is absent this raises `TypeError`, the locally
collected alerts (including a speed alert) are discarded, and the caller's
`except` branch swallows the error — modelled by returning `none`. -/
def check_alerts (telemetry : Telemetry) (bus : Bus) (db : DB) (now : ℚ) : Option DB :=
  let speedAlerts :=
    if 80 < telemetry.speed_kmh then [mkAlert bus.id .WARNING "Speed Limit Exceeded" now] else []
  match telemetry.fuel_level_liters with
  | none => none
  | some f =>
    let fuel_percentage := f / bus.fuel_tank_capacity * 100
    let fuelAlerts :=
      if fuel_percentage < 20 then
        [mkAlert bus.id (if fuel_percentage < 10 then .CRITICAL else .WARNING) "Low Fuel Level" now]
      else []
    let idleAlerts :=
      if telemetry.speed_kmh = 0 ∧ telemetry.engine_on = true then
        let recent := db.telemetry.filter
          (fun r => r.bus_id == bus.id && decide (now - 600 ≤ r.timestamp))
        if 5 < recent.length ∧
            (recent.drop (recent.length - 5)).all
              (fun r => decide (r.speed_kmh = 0) && r.engine_on) then
          [mkAlert bus.id .INFO "Extended Idling Detected" now]
        else []
      else []
    some { db with alerts := db.alerts ++ speedAlerts ++ fuelAlerts ++ idleAlerts }

/-- Range check `value is not None and (value < lo or value > hi)` applied
by the HTTP validator to an optional field: an absent value passes. -/
def outOfRange (x : Option ℚ) (lo hi : ℚ) : Bool :=
  match x with
  | none => false
  | some v => decide (v < lo) || decide (hi < v)

/-- Validation failures of the HTTP telemetry endpoint, in the order the
checks occur (each is a 400 response; nothing is persisted). -/
inductive ValErr where
  | invalid_latitude
  | invalid_longitude
  | invalid_speed
  | invalid_fuel
deriving DecidableEq, Repr

/-- Shallow embedding of `transport.receive_telemetry` (transport.py lines
115-213) from the point where the vehicle row has been resolved (API-key
authentication is a precondition of the model, as it precedes everything the
claims are about).  Returns the validation error (state untouched), or the
final state together with the emitted realtime update. -/
def receive_telemetry (bus : Bus) (data : Payload) (db : DB) (now : ℚ) :
    Except ValErr (DB × UpdateMsg) :=
  if outOfRange data.latitude (-90) 90 then
    .error .invalid_latitude
  else if outOfRange data.longitude (-180) 180 then
    .error .invalid_longitude
  else
    let speed_kmh := data.speed_kmh.getD 0
    if speed_kmh < 0 ∨ 200 < speed_kmh then
      .error .invalid_speed
    else if outOfRange data.fuel_level_liters 0 (bus.fuel_tank_capacity * (11/10)) then
      .error .invalid_fuel
    else
      let row : Telemetry :=
        ⟨db.seq, bus.id, now, data.latitude, data.longitude, speed_kmh,
         data.fuel_level_liters, max 0 (data.fuel_flow_lph.getD 0),
         max 0 (data.odometer_km.getD 0), data.engine_on.getD false,
         data.heading, data.altitude⟩
      let db1 := { db with telemetry := db.telemetry ++ [row], seq := db.seq + 1 }
      let db2 := anomalyStep bus row db1 now
      let db3 := (check_alerts row bus db2 now).getD db2
      .ok (db3, mkMsg bus.school_id row)

/-- Shallow embedding of `mqtt_client.on_message` (mqtt_client.py lines
24-106) from the point where the topic has been split and the vehicle row
looked up by id.  The school id comes from the topic; when it does not
match the bus the message is dropped.  Note there is no range validation,
no clamping and no `check_alerts` call on this path. -/
def on_message (school_id : ℕ) (bus : Bus) (payload : Payload) (db : DB) (now : ℚ) :
    Option (DB × UpdateMsg) :=
  if bus.school_id ≠ school_id then none
  else
    let row : Telemetry :=
      ⟨db.seq, bus.id, now, payload.latitude, payload.longitude,
       payload.speed_kmh.getD 0, payload.fuel_level_liters,
       payload.fuel_flow_lph.getD 0, payload.odometer_km.getD 0,
       payload.engine_on.getD false, payload.heading, payload.altitude⟩
    let db1 := { db with telemetry := db.telemetry ++ [row], seq := db.seq + 1 }
    let db2 := anomalyStep bus row db1 now
    some (db2, mkMsg school_id row)

/-- Predicate of the dedup lookup in the offline monitor: an
unacknowledged "Bus Offline" alert of the given vehicle. -/
def offlinePred (bid : ℕ) (a : Alert) : Bool :=
  a.bus_id == bid && a.title == "Bus Offline" && a.is_acknowledged == false

/-- One iteration of the loop body of `check_bus_offline` for one active
vehicle (scheduler.py lines 31-55). -/
def offlineStep (now : ℚ) (d : DB) (bus : Bus) : DB :=
  match latestTelemetry d bus.id with
  | none => d
  | some latest =>
    if 3600 < now - latest.timestamp then
      if (d.alerts.filter (offlinePred bus.id)).isEmpty then
        { d with alerts := d.alerts ++ [mkAlert bus.id .WARNING "Bus Offline" now] }
      else d
    else d

/-- Shallow embedding of the scheduled job `check_bus_offline`
(scheduler.py lines 22-61): iterate over all active vehicles, and for each
one whose newest sample is over an hour old insert a "Bus Offline"
WARNING alert unless an unacknowledged one already exists. -/
def check_bus_offline (db : DB) (now : ℚ) : DB :=
  (db.buses.filter (fun b => b.is_active)).foldl (offlineStep now) db

/-- Number of unacknowledged alerts of one vehicle with the given title. -/
def unackedCount (db : DB) (bid : ℕ) (title : String) : ℕ :=
  (db.alerts.filter
    (fun a => a.bus_id == bid && a.title == title && a.is_acknowledged == false)).length

/-- Python truthiness of a plain float column (used on `odometer_km`):
false exactly for 0. -/
def truthyQ (v : ℚ) : Bool := v != 0

/-- Round-half-to-even to an integer, the rounding mode of Python's
`round` (idealized to exact rationals). -/
def roundHalfEven (x : ℚ) : ℤ :=
  let f := ⌊x⌋
  let r := x - f
  if r < 1/2 then f else if 1/2 < r then f + 1 else if f % 2 = 0 then f else f + 1

/-- Python `round(x, 2)`. -/
def round2 (x : ℚ) : ℚ := (roundHalfEven (100 * x) : ℚ) / 100

/-- One entry of the `efficiency_timeline` list (timestamp kept as a
number rather than an ISO string). -/
structure EffPoint where
  timestamp : ℚ
  kmpl : ℚ
  l_per_100km : ℚ
  distance_km : ℚ
  fuel_consumed_l : ℚ
deriving DecidableEq, Repr

/-- The dict returned by `calculate_fuel_efficiency` on ≥ 2 samples. -/
structure EfficiencyResult where
  overall_kmpl : ℚ
  overall_l_per_100km : ℚ
  total_distance_km : ℚ
  total_fuel_consumed_l : ℚ
  efficiency_timeline : List EffPoint
deriving DecidableEq, Repr

/-- Adjacent pairs `(data[i-1], data[i])` visited by the loop
`for i in range(1, len(data))`. -/
def adjPairs {α : Type} : List α → List (α × α)
  | a :: b :: t => (a, b) :: adjPairs (b :: t)
  | _ => []

/-- Accumulator of the efficiency loop: running totals and the timeline
collected so far. -/
structure EffAcc where
  td : ℚ
  tf : ℚ
  pts : List EffPoint
deriving DecidableEq, Repr

/-- One iteration of the loop body of `calculate_fuel_efficiency`
(utils.py lines 32-60) on the pair (previous, current). -/
def effStep (acc : EffAcc) (pr : Telemetry × Telemetry) : EffAcc :=
  let p := pr.1
  let c := pr.2
  let distance :=
    if truthyQ p.odometer_km && truthyQ c.odometer_km then c.odometer_km - p.odometer_km else 0
  let acc1 := if 0 < distance then { acc with td := acc.td + distance } else acc
  if truthy p.fuel_level_liters && truthy c.fuel_level_liters then
    let fuel_diff := p.fuel_level_liters.getD 0 - c.fuel_level_liters.getD 0
    if 0 < fuel_diff ∧ 0 < distance then
      ⟨acc1.td, acc1.tf + fuel_diff,
        acc1.pts ++ [⟨c.timestamp, round2 (distance / fuel_diff),
          round2 (fuel_diff / distance * 100), round2 distance, round2 fuel_diff⟩]⟩
    else acc1
  else acc1

/-- Shallow embedding of `utils.calculate_fuel_efficiency` (utils.py lines
23-72); the empty dict returned on fewer than 2 samples is `none`. -/
def calculate_fuel_efficiency (telemetry_data : List Telemetry) : Option EfficiencyResult :=
  if telemetry_data.length < 2 then none
  else
    let acc := (adjPairs telemetry_data).foldl effStep ⟨0, 0, []⟩
    let overall_kmpl := if 0 < acc.tf then acc.td / acc.tf else 0
    let overall_l_per_100km := if 0 < acc.td then acc.tf / acc.td * 100 else 0
    some ⟨round2 overall_kmpl, round2 overall_l_per_100km, round2 acc.td, round2 acc.tf, acc.pts⟩

/-- Distance contribution of one adjacent pair: the odometer delta when
both odometer readings are nonzero and the delta is positive, else 0.
Note it does not depend on the fuel levels. -/
def pairDistance (p c : Telemetry) : ℚ :=
  if truthyQ p.odometer_km && truthyQ c.odometer_km &&
      decide (0 < c.odometer_km - p.odometer_km) then
    c.odometer_km - p.odometer_km
  else 0

/-- Consumption contribution of one adjacent pair: the fuel drop when both
fuel levels are present and nonzero, the fuel strictly decreased, and the
pair's distance contribution is positive; else 0. -/
def pairFuel (p c : Telemetry) : ℚ :=
  if truthy p.fuel_level_liters && truthy c.fuel_level_liters &&
      decide (0 < p.fuel_level_liters.getD 0 - c.fuel_level_liters.getD 0) &&
      decide (0 < pairDistance p c) then
    p.fuel_level_liters.getD 0 - c.fuel_level_liters.getD 0
  else 0

/-- Timeline entry of one adjacent pair, present exactly when the pair
contributes to consumption. -/
def pairPoint (p c : Telemetry) : Option EffPoint :=
  if truthy p.fuel_level_liters && truthy c.fuel_level_liters &&
      decide (0 < p.fuel_level_liters.getD 0 - c.fuel_level_liters.getD 0) &&
      decide (0 < pairDistance p c) then
    let fuel_diff := p.fuel_level_liters.getD 0 - c.fuel_level_liters.getD 0
    some ⟨c.timestamp, round2 (pairDistance p c / fuel_diff),
      round2 (fuel_diff / pairDistance p c * 100), round2 (pairDistance p c), round2 fuel_diff⟩
  else none

/-- Total accumulated distance, stated as a sum over adjacent pairs. -/
def distSum (l : List Telemetry) : ℚ :=
  ((adjPairs l).map (fun pr => pairDistance pr.1 pr.2)).sum

/-- Total accumulated consumption, stated as a sum over adjacent pairs. -/
def fuelSum (l : List Telemetry) : ℚ :=
  ((adjPairs l).map (fun pr => pairFuel pr.1 pr.2)).sum

/-- Distance total as claim C5 words it: a pair contributes only when the
odometer strictly increased AND the fuel level strictly decreased on that
same pair. -/
def claimC5_distance (l : List Telemetry) : ℚ :=
  ((adjPairs l).map (fun pr =>
    if decide (0 < pairDistance pr.1 pr.2) &&
        decide (pr.2.fuel_level_liters.getD 0 < pr.1.fuel_level_liters.getD 0) then
      pairDistance pr.1 pr.2
    else 0)).sum

/-- Concise constructor for telemetry rows whose position fields are absent
(id, bus id, timestamp, speed, fuel, engine flag, odometer). -/
def mkT (i b : ℕ) (ts speed : ℚ) (fuel : Option ℚ) (eng : Bool) (odo : ℚ) : Telemetry :=
  ⟨i, b, ts, none, none, speed, fuel, 0, odo, eng, none, none⟩

/-- A vehicle with tank capacity 100 L used by concrete instances. -/
def busA : Bus := ⟨1, 7, true, 100, none⟩

/-- Consecutive samples 30 minutes apart: stationary, engine on, fuel
10 L → 9 L, so `fuel_diff = -1` and `elapsed_hours = 1/2` exactly. -/
def prevIdle : Telemetry := mkT 1 1 0 0 (some 10) true 0

/-- Current sample of the 30-minute idle pair. -/
def currIdle : Telemetry := mkT 2 1 1800 0 (some 9) true 0

/-- Window used by claim C5's counterexample: odometer 100 → 110 while
fuel rose 50 → 55 (a refuel while driving). -/
def exRefuelDrive : List Telemetry :=
  [mkT 1 1 0 0 (some 50) false 100, mkT 2 1 3600 0 (some 55) false 110]

/-- The spec's reference window: odometer 100 → 110 km, fuel 50 → 45 L. -/
def exScenario5 : List Telemetry :=
  [mkT 1 1 0 0 (some 50) false 100, mkT 2 1 3600 0 (some 45) false 110]

/-- Initial state: one registered vehicle, no samples, events or alerts. -/
def db0 : DB := ⟨[busA], [], [], [], 0⟩

/-- A low-fuel payload: speed 5 km/h, fuel 15 L (15% of the 100 L tank). -/
def payloadLow : Payload := ⟨none, none, some 5, some 15, none, none, some false, none, none⟩

/-- State containing one live (unacknowledged) "Low Fuel Level" alert for
the vehicle. -/
def dbWithLow : DB := ⟨[busA], [], [], [mkAlert 1 .WARNING "Low Fuel Level" 0], 0⟩

/-- Sample repeating the low-fuel condition 10 minutes later. -/
def tLow : Telemetry := mkT 0 1 600 5 (some 15) false 0

/-- A validated sample with an absent fuel level and speed 100 km/h. -/
def tNoFuel : Telemetry := mkT 0 1 0 100 none false 0

/-- The payload producing `tNoFuel`: there is no fuel key, and speed 100
passes validation (0 ≤ 100 ≤ 200). -/
def payloadNoFuel : Payload := ⟨none, none, some 100, none, none, none, some false, none, none⟩

/-- A payload whose fuel level 200 L exceeds 1.1 × the 100 L tank. -/
def payloadHigh : Payload := ⟨none, none, some 0, some 200, none, none, some false, none, none⟩

/-- A payload carrying the impossible fuel level -5 L. -/
def payloadNegFuel : Payload := ⟨none, none, some 0, some (-5), none, none, some false, none, none⟩

/-- A payload with speed 100 km/h (valid) and fuel 50 L (valid). -/
def payloadFast : Payload := ⟨none, none, some 100, some 50, none, none, some true, none, none⟩

instance : IsTotal Telemetry newerRow :=
  ⟨fun a b => by
    unfold newerRow
    rcases lt_trichotomy a.timestamp b.timestamp with h | h | h
    · exact Or.inr (Or.inl h)
    · rcases le_total b.id a.id with hid | hid
      · exact Or.inl (Or.inr ⟨h, hid⟩)
      · exact Or.inr (Or.inr ⟨h.symm, hid⟩)
    · exact Or.inl (Or.inl h)⟩

instance : IsTrans Telemetry newerRow :=
  ⟨fun a b c hab hbc => by
    unfold newerRow at hab hbc ⊢
    rcases hab with h1 | ⟨h1, h1'⟩ <;> rcases hbc with h2 | ⟨h2, h2'⟩
    · exact Or.inl (lt_trans h2 h1)
    · exact Or.inl (by rw [← h2]; exact h1)
    · exact Or.inl (by rw [h1]; exact h2)
    · exact Or.inr ⟨h1.trans h2, le_trans h2' h1'⟩⟩

/-- Two persisted samples for the vehicle, at times 10 s and 20 s. -/
def dbC6 : DB :=
  ⟨[busA], [mkT 0 1 10 0 (some 50) false 0, mkT 1 1 20 0 (some 20) false 0], [], [], 2⟩

/-- An out-of-order payload arriving with server time 15 s: fuel 35 L,
stationary, engine off. -/
def payloadC6 : Payload := ⟨none, none, some 0, some 35, none, none, some false, none, none⟩

/-- The row `receive_telemetry` inserts for `payloadC6` at time 15. -/
def rowC6 : Telemetry := mkT 2 1 15 0 (some 35) false 0

/-- One persisted sample at time 10 s for the vehicle. -/
def dbC6w : DB := ⟨[busA], [mkT 0 1 10 0 (some 50) false 0], [], [], 1⟩

/-- A later row at time 20 s. -/
def rowC6w : Telemetry := mkT 1 1 20 0 (some 45) false 0

/-- A vehicle whose only sample is an hour and a bit stale at time 3700. -/
def dbOff : DB := ⟨[busA], [mkT 0 1 0 0 (some 50) false 0], [], [], 1⟩

/-- Rewrites every vehicle's `last_seen` column with `f` of its id,
leaving every other column and table alone. -/
def mapLastSeen (f : ℕ → Option ℚ) (db : DB) : DB :=
  ⟨db.buses.map (fun b => ⟨b.id, b.school_id, b.is_active, b.fuel_tank_capacity, f b.id⟩),
   db.telemetry, db.fuel_events, db.alerts, db.seq⟩

/-- The registered vehicle carries a stored `last_seen` of 5 s. -/
def busLS : Bus := ⟨1, 7, true, 100, some 5⟩

/-- Initial state owning `busLS`, with empty tables. -/
def dbLS : DB := ⟨[busLS], [], [], [], 0⟩

/-- The telemetry row the accepted 1000 s ingestion of `payloadLow`
persists. -/
def rowLS : Telemetry := ⟨0, 1, 1000, none, none, 5, some 15, 0, 0, false, none, none⟩

/-- The state after that ingestion: the row, one low-fuel alert, and the
vehicle row — with `last_seen` still 5. -/
def dbLSafter : DB := ⟨[busLS], [rowLS], [], [mkAlert 1 .WARNING "Low Fuel Level" 1000], 1⟩

/-- The realtime update of that ingestion. -/
def msgLS : UpdateMsg := ⟨7, 1, none, none, 5, some 15, false, 1000⟩

/-- Claim C1, counterexample: at `elapsed_hours` exactly 0.5 with
`fuel_diff = -1 < -0.5`, speed 0 and engine on, the claim's rule 4
(`elapsed_hours ≥ 0.5`) emits IDLE, but `detect_fuel_anomaly` requires
the strict `time_diff > 0.5` and emits nothing. -/
theorem claim_C1_counterexample :
    claimC1_classifier false prevIdle currIdle = some (.IDLE, .WARNING) ∧
      detect_fuel_anomaly prevIdle currIdle busA = none := by
  constructor
  · norm_num [claimC1_classifier, fuelRules, firstMatch, deltaCtx, prevIdle, currIdle, mkT]
  · norm_num [detect_fuel_anomaly, truthy, prevIdle, currIdle, mkT]

/-- Claim C1 (amended): on every sample pair that reaches the rule cascade
(both fuel levels present and nonzero), `detect_fuel_anomaly` emits exactly
the (kind, severity) chosen by the first matching rule of the fixed ordered
list, with rule 4 amended to the strict bound `elapsed_hours > 0.5`; rules
1-3 and their strict thresholds are as the claim states them. -/
theorem claim_C1_theorem (prev curr : Telemetry) (bus : Bus)
    (hp : truthy prev.fuel_level_liters) (hc : truthy curr.fuel_level_liters) :
    (detect_fuel_anomaly prev curr bus).map (fun a => (a.type, a.severity)) =
      claimC1_classifier true prev curr := by
  unfold detect_fuel_anomaly claimC1_classifier fuelRules deltaCtx
  rw [if_neg (by simp [hp, hc])]
  simp only [firstMatch]
  split_ifs <;> simp_all

/-- Claim C1 witness: a concrete pair with both fuel levels present and
nonzero (fuel 50 L → 44 L in 10 minutes while stationary, engine off),
where both the code and the amended rule list yield THEFT/CRITICAL. -/
theorem claim_C1_witness :
    truthy (mkT 1 1 0 0 (some 50) false 0).fuel_level_liters ∧
      (detect_fuel_anomaly (mkT 1 1 0 0 (some 50) false 0)
          (mkT 2 1 600 0 (some 44) false 0) busA).map (fun a => (a.type, a.severity)) =
        claimC1_classifier true (mkT 1 1 0 0 (some 50) false 0)
          (mkT 2 1 600 0 (some 44) false 0) :=
  ⟨by norm_num [truthy, mkT],
   claim_C1_theorem _ _ busA (by norm_num [truthy, mkT]) (by norm_num [truthy, mkT])⟩

/-- One loop iteration adds exactly the pair's distance contribution, its
consumption contribution, and its optional timeline entry. -/
theorem effStep_eq (acc : EffAcc) (pr : Telemetry × Telemetry) :
    effStep acc pr = ⟨acc.td + pairDistance pr.1 pr.2, acc.tf + pairFuel pr.1 pr.2,
      acc.pts ++ (pairPoint pr.1 pr.2).toList⟩ := by
  obtain ⟨p, c⟩ := pr
  simp only [effStep, pairDistance, pairFuel, pairPoint]
  split_ifs <;> simp_all <;> linarith

/-- The efficiency loop computes the pairwise sums `distSum`/`fuelSum` and
the filtered timeline. -/
theorem eff_foldl (L : List (Telemetry × Telemetry)) (acc : EffAcc) :
    L.foldl effStep acc =
      ⟨acc.td + (L.map (fun pr => pairDistance pr.1 pr.2)).sum,
       acc.tf + (L.map (fun pr => pairFuel pr.1 pr.2)).sum,
       acc.pts ++ L.filterMap (fun pr => pairPoint pr.1 pr.2)⟩ := by
  induction L generalizing acc with
  | nil => simp
  | cons hd tl ih =>
    rw [List.foldl_cons, effStep_eq, ih]
    cases h : pairPoint hd.1 hd.2 <;>
      simp [List.filterMap_cons, h, add_assoc, List.append_assoc]

/-- Every pair's distance contribution is nonnegative. -/
theorem pairDistance_nonneg (p c : Telemetry) : 0 ≤ pairDistance p c := by
  unfold pairDistance
  split_ifs with h
  · simp only [Bool.and_eq_true, decide_eq_true_eq] at h
    exact le_of_lt h.2
  · exact le_refl 0

/-- Every pair's consumption contribution is nonnegative. -/
theorem pairFuel_nonneg (p c : Telemetry) : 0 ≤ pairFuel p c := by
  unfold pairFuel
  split_ifs with h
  · simp only [Bool.and_eq_true, decide_eq_true_eq] at h
    exact le_of_lt h.1.2
  · exact le_refl 0

/-- Claim C5 (amended): on a window of at least 2 samples the aggregator
returns exactly the pairwise totals: distance summed over all adjacent
pairs with both odometers nonzero and a positive odometer delta
(independently of the fuel direction), consumption summed over the pairs
that additionally have both fuel levels present and strictly decreasing,
`overall_kmpl = total_distance / total_fuel` (0 if no fuel consumed),
`overall_l_per_100km = total_fuel / total_distance × 100` (0 if no
distance), each rounded to 2 decimals; and no negative distance or
consumption is ever accumulated. -/
theorem claim_C5_theorem (data : List Telemetry) (h : 2 ≤ data.length) :
    calculate_fuel_efficiency data =
      some ⟨round2 (if 0 < fuelSum data then distSum data / fuelSum data else 0),
        round2 (if 0 < distSum data then fuelSum data / distSum data * 100 else 0),
        round2 (distSum data), round2 (fuelSum data),
        (adjPairs data).filterMap (fun pr => pairPoint pr.1 pr.2)⟩ ∧
      0 ≤ distSum data ∧ 0 ≤ fuelSum data := by
  refine ⟨?_, ?_, ?_⟩
  · unfold calculate_fuel_efficiency
    rw [if_neg (by omega), eff_foldl]
    simp [distSum, fuelSum]
  · exact List.sum_nonneg (by
      intro x hx
      simp only [List.mem_map] at hx
      obtain ⟨pr, _, rfl⟩ := hx
      exact pairDistance_nonneg pr.1 pr.2)
  · exact List.sum_nonneg (by
      intro x hx
      simp only [List.mem_map] at hx
      obtain ⟨pr, _, rfl⟩ := hx
      exact pairFuel_nonneg pr.1 pr.2)

/-- Claim C5, counterexample: on a window whose only pair has the fuel
level strictly increasing, the code still accumulates the 10 km of
distance (`total_distance_km = 10`), whereas the claim's reading —
distance accumulated only over pairs where the odometer increased AND the
fuel decreased — yields 0. -/
theorem claim_C5_counterexample :
    (calculate_fuel_efficiency exRefuelDrive).map (fun r => r.total_distance_km) = some 10 ∧
      round2 (claimC5_distance exRefuelDrive) = 0 := by
  constructor
  · norm_num [calculate_fuel_efficiency, exRefuelDrive, adjPairs, effStep, mkT,
      truthy, truthyQ, round2, roundHalfEven]
  · norm_num [claimC5_distance, exRefuelDrive, adjPairs, pairDistance, mkT,
      truthyQ, round2, roundHalfEven]

/-- Claim C5 witness: the reference window gives `overall_kmpl = 2.0` and
`overall_l_per_100km = 50.0` with totals 10 km and 5 L. -/
theorem claim_C5_witness :
    calculate_fuel_efficiency exScenario5 =
      some ⟨2, 50, 10, 5, [⟨3600, 2, 50, 10, 5⟩]⟩ := by
  have hd : distSum exScenario5 = 10 := by
    norm_num [distSum, adjPairs, pairDistance, exScenario5, mkT, truthyQ]
  have hf : fuelSum exScenario5 = 5 := by
    norm_num [fuelSum, adjPairs, pairFuel, pairDistance, exScenario5, mkT, truthy, truthyQ]
  have hp : (adjPairs exScenario5).filterMap (fun pr => pairPoint pr.1 pr.2) =
      [⟨3600, 2, 50, 10, 5⟩] := by
    have h1 : pairPoint (mkT 1 1 0 0 (some 50) false 100) (mkT 2 1 3600 0 (some 45) false 110) =
        some ⟨3600, 2, 50, 10, 5⟩ := by
      norm_num [pairPoint, pairDistance, mkT, truthy, truthyQ, round2, roundHalfEven]
    simp [adjPairs, exScenario5, List.filterMap_cons, h1]
  rw [(claim_C5_theorem exScenario5 (by norm_num [exScenario5])).1, hd, hf, hp]
  norm_num [round2, roundHalfEven]

/-- Claim C10: whenever the previous or the current fuel level is absent or
exactly 0 liters, `detect_fuel_anomaly` returns no event at all, whatever
the other fields are. -/
theorem claim_C10_theorem (prev curr : Telemetry) (bus : Bus)
    (h : prev.fuel_level_liters = none ∨ prev.fuel_level_liters = some 0 ∨
         curr.fuel_level_liters = none ∨ curr.fuel_level_liters = some 0) :
    detect_fuel_anomaly prev curr bus = none := by
  rcases h with h | h | h | h <;> simp [detect_fuel_anomaly, truthy, h]

/-- Claim C10 witness: a 20 L drop to exactly 0 L while stationary with the
engine off (the theft pattern) produces no event, because the current fuel
level 0 is falsy in the guard. -/
theorem claim_C10_witness :
    detect_fuel_anomaly (mkT 1 1 0 0 (some 20) false 0)
      (mkT 2 1 600 0 (some 0) false 0) busA = none :=
  claim_C10_theorem _ _ busA (Or.inr (Or.inr (Or.inr rfl)))

/-- Claim C3 (amended): the rule-based alert engine performs no duplicate
check at all: every evaluation on a low-fuel sample appends a fresh
unacknowledged "Low Fuel Level" alert, raising the per-vehicle
unacknowledged count by exactly one even when an unacknowledged alert of
the same title already exists (dedup exists only in the offline monitor). -/
theorem claim_C3_theorem (t : Telemetry) (bus : Bus) (db : DB) (now : ℚ) (f : ℚ)
    (hf : t.fuel_level_liters = some f)
    (hlow : f / bus.fuel_tank_capacity * 100 < 20) :
    (check_alerts t bus db now).map (fun d => unackedCount d bus.id "Low Fuel Level") =
      some (unackedCount db bus.id "Low Fuel Level" + 1) := by
  have hs : ("Speed Limit Exceeded" == "Low Fuel Level") = false := by decide
  have hi : ("Extended Idling Detected" == "Low Fuel Level") = false := by decide
  simp only [check_alerts, hf, Option.map_some]
  rw [if_pos hlow]
  simp only [unackedCount, mkAlert, List.filter_append, List.length_append]
  split_ifs <;> simp [hs, hi]

/-- Claim C3 witness: evaluating the engine on a second low-fuel sample
while a "Low Fuel Level" alert is still unacknowledged yields a second
unacknowledged row (count 1 → 2). -/
theorem claim_C3_witness :
    (check_alerts tLow busA dbWithLow 600).map (fun d => unackedCount d 1 "Low Fuel Level") =
      some 2 := by
  have h := claim_C3_theorem tLow busA dbWithLow 600 15 rfl (by norm_num [busA])
  rw [show busA.id = 1 from rfl] at h
  rw [h]
  norm_num [unackedCount, dbWithLow, mkAlert]

/-- Claim C3, counterexample: two consecutive accepted low-fuel samples
for the same vehicle leave TWO unacknowledged "Low Fuel Level" alert rows,
not the single row the dedup invariant demands. -/
theorem claim_C3_counterexample :
    ((receive_telemetry busA payloadLow db0 0).toOption.bind
        (fun r => (receive_telemetry busA payloadLow r.1 600).toOption)).map
      (fun r => unackedCount r.1 1 "Low Fuel Level") = some 2 := by
  norm_num [receive_telemetry, payloadLow, db0, busA, outOfRange, anomalyStep,
    previousTelemetry, latestTelemetry, sortedDesc, busRows, List.insertionSort,
    List.orderedInsert, newerRow, detect_fuel_anomaly, truthy, check_alerts,
    mkAlert, mkMsg, unackedCount, Except.toOption]

/-- Claim C9, failing input: on a validator-accepted sample with an absent
fuel level, `check_alerts` raises `TypeError` computing
`fuel_level_liters / fuel_tank_capacity` (modelled `none`), and the
already-built speed alert is lost: the full ingestion of a 100 km/h
no-fuel sample is accepted yet persists no alert at all, although the
speed rule fired. -/
theorem claim_C9_theorem :
    check_alerts tNoFuel busA db0 0 = none ∧
      (receive_telemetry busA payloadNoFuel db0 0).toOption.map (fun r => r.1.alerts) =
        some [] := by
  constructor
  · norm_num [check_alerts, tNoFuel, mkT]
  · norm_num [receive_telemetry, payloadNoFuel, db0, busA, outOfRange, anomalyStep,
      previousTelemetry, sortedDesc, busRows, List.insertionSort, List.orderedInsert,
      newerRow, detect_fuel_anomaly, truthy, check_alerts, mkMsg, Except.toOption]

/-- The anomaly block never touches the telemetry table, the vehicle
registry or the sequence; it only appends fuel events and alerts. -/
theorem anomalyStep_fields (bus : Bus) (row : Telemetry) (db : DB) (now : ℚ) :
    (anomalyStep bus row db now).telemetry = db.telemetry ∧
    (anomalyStep bus row db now).buses = db.buses ∧
    (anomalyStep bus row db now).seq = db.seq ∧
    ∃ ef ea, (anomalyStep bus row db now).fuel_events = db.fuel_events ++ ef ∧
      (anomalyStep bus row db now).alerts = db.alerts ++ ea := by
  unfold anomalyStep
  split
  · exact ⟨rfl, rfl, rfl, [], [], by simp, by simp⟩
  · split
    · exact ⟨rfl, rfl, rfl, [], [], by simp, by simp⟩
    · dsimp only
      split_ifs
      · exact ⟨rfl, rfl, rfl, _, _, rfl, rfl⟩
      · exact ⟨rfl, rfl, rfl, _, [], rfl, by simp⟩

/-- On a non-raising run the alert engine only appends alerts. -/
theorem check_alerts_fields (t : Telemetry) (bus : Bus) (db : DB) (now : ℚ) (d : DB)
    (h : check_alerts t bus db now = some d) :
    d.telemetry = db.telemetry ∧ d.buses = db.buses ∧ d.seq = db.seq ∧
    d.fuel_events = db.fuel_events ∧ ∃ ea, d.alerts = db.alerts ++ ea := by
  unfold check_alerts at h
  cases hf : t.fuel_level_liters with
  | none => rw [hf] at h; exact absurd h (by simp)
  | some f =>
    rw [hf] at h
    obtain rfl := (Option.some.injEq _ _).mp h.symm
    refine ⟨rfl, rfl, rfl, rfl, ?_⟩
    simp only [List.append_assoc]
    exact ⟨_, rfl⟩

/-- An out-of-range check that passes on a present value bounds it. -/
theorem outOfRange_false {v lo hi : ℚ} (h : outOfRange (some v) lo hi = false) :
    lo ≤ v ∧ v ≤ hi := by
  unfold outOfRange at h
  simp only [Bool.or_eq_false_iff, decide_eq_false_iff_not, not_lt] at h
  exact h

/-- A value outside the bounds fails the check. -/
theorem outOfRange_true {v lo hi : ℚ} (h : v < lo ∨ hi < v) :
    outOfRange (some v) lo hi = true := by
  unfold outOfRange
  rcases h with h | h <;> simp [h]

/-- Claim C2 (amended): over the HTTP endpoint the property holds: a
present fuel level outside `[0, 1.1 × tank_capacity]` is rejected with a
validation failure (the model returns no successor state, mirroring that
the checks precede every write), and every row a successful call persists
beyond the prior table content has its fuel level, when present, inside
the range.  The MQTT path is the exception the counterexample shows. -/
theorem claim_C2_theorem (bus : Bus) (data : Payload) (db : DB) (now : ℚ) :
    (∀ f, data.fuel_level_liters = some f →
      (f < 0 ∨ bus.fuel_tank_capacity * (11/10) < f) →
      ∃ e, receive_telemetry bus data db now = Except.error e) ∧
    (∀ d m, receive_telemetry bus data db now = Except.ok (d, m) →
      ∀ r ∈ d.telemetry, r ∈ db.telemetry ∨
        ∀ f, r.fuel_level_liters = some f →
          0 ≤ f ∧ f ≤ bus.fuel_tank_capacity * (11/10)) := by
  constructor
  · intro f hf hbad
    unfold receive_telemetry
    dsimp only
    split_ifs with h1 h2 h3 h4
    · exact ⟨_, rfl⟩
    · exact ⟨_, rfl⟩
    · exact ⟨_, rfl⟩
    · exact ⟨_, rfl⟩
    · exact absurd (by rw [hf]; exact outOfRange_true hbad) h4
  · intro d m h
    unfold receive_telemetry at h
    dsimp only at h
    split_ifs at h with h1 h2 h3 h4
    obtain ⟨ht2, _, _, _, _⟩ := anomalyStep_fields bus
      ⟨db.seq, bus.id, now, data.latitude, data.longitude, data.speed_kmh.getD 0,
        data.fuel_level_liters, max 0 (data.fuel_flow_lph.getD 0),
        max 0 (data.odometer_km.getD 0), data.engine_on.getD false,
        data.heading, data.altitude⟩
      { db with telemetry := db.telemetry ++ [⟨db.seq, bus.id, now, data.latitude,
          data.longitude, data.speed_kmh.getD 0, data.fuel_level_liters,
          max 0 (data.fuel_flow_lph.getD 0), max 0 (data.odometer_km.getD 0),
          data.engine_on.getD false, data.heading, data.altitude⟩], seq := db.seq + 1 } now
    rw [Except.ok.injEq, Prod.mk.injEq] at h
    obtain ⟨hd, hm⟩ := h
    intro r hr
    have htel : d.telemetry = db.telemetry ++ [⟨db.seq, bus.id, now, data.latitude,
        data.longitude, data.speed_kmh.getD 0, data.fuel_level_liters,
        max 0 (data.fuel_flow_lph.getD 0), max 0 (data.odometer_km.getD 0),
        data.engine_on.getD false, data.heading, data.altitude⟩] := by
      rw [← hd]
      cases hca : check_alerts _ bus _ now with
      | none => simpa [hca] using ht2
      | some d2 =>
        have := (check_alerts_fields _ bus _ now d2 hca).1
        simpa [hca, this] using ht2
    rw [htel] at hr
    rcases List.mem_append.mp hr with hmem | hmem
    · exact Or.inl hmem
    · right
      intro f hf
      obtain rfl := List.mem_singleton.mp hmem
      simp only at hf
      rw [hf] at h4
      exact outOfRange_false (Bool.not_eq_true _ ▸ h4)

/-- Claim C2 witness: the HTTP endpoint rejects the 200 L reading. -/
theorem claim_C2_witness :
    ∃ e, receive_telemetry busA payloadHigh db0 0 = Except.error e :=
  (claim_C2_theorem busA payloadHigh db0 0).1 200 rfl (by norm_num [busA])

/-- Claim C2, counterexample: the MQTT ingestion path persists the
negative fuel level -5 L unchanged — no range validation and no rejection
happen on that transport, so the "either transport" claim fails. -/
theorem claim_C2_counterexample :
    (on_message 7 busA payloadNegFuel db0 0).map
      (fun r => r.1.telemetry.map (fun row => row.fuel_level_liters)) = some [some (-5)] ∧
      ((-5 : ℚ) < 0) := by
  constructor
  · norm_num [on_message, payloadNegFuel, db0, busA, anomalyStep, previousTelemetry,
      sortedDesc, busRows, List.insertionSort, List.orderedInsert, newerRow,
      detect_fuel_anomaly, truthy, mkMsg]
  · norm_num

/-- Claim C4 (amended): the two transports agree on the persisted sample,
the FuelEvent decisions and the realtime update — for payloads that pass
the HTTP validation and need no clamping — but they are NOT equivalent on
Alert decisions: the MQTT path never runs the rule-based alert engine, so
the HTTP result carries the engine's extra alerts on top of the MQTT
result's (and the MQTT path would also accept payloads the HTTP endpoint
rejects, see the counterexample of C2). -/
theorem claim_C4_theorem (bus : Bus) (data : Payload) (db : DB) (now : ℚ)
    (h1 : outOfRange data.latitude (-90) 90 = false)
    (h2 : outOfRange data.longitude (-180) 180 = false)
    (h3 : ¬(data.speed_kmh.getD 0 < 0 ∨ 200 < data.speed_kmh.getD 0))
    (h4 : outOfRange data.fuel_level_liters 0 (bus.fuel_tank_capacity * (11/10)) = false)
    (hflow : 0 ≤ data.fuel_flow_lph.getD 0)
    (hodo : 0 ≤ data.odometer_km.getD 0) :
    ∃ dh mh dm mm extra,
      receive_telemetry bus data db now = Except.ok (dh, mh) ∧
      on_message bus.school_id bus data db now = some (dm, mm) ∧
      dh.telemetry = dm.telemetry ∧ dh.fuel_events = dm.fuel_events ∧ mh = mm ∧
      dh.alerts = dm.alerts ++ extra := by
  have hmax1 : max 0 (data.fuel_flow_lph.getD 0) = data.fuel_flow_lph.getD 0 :=
    max_eq_right hflow
  have hmax2 : max 0 (data.odometer_km.getD 0) = data.odometer_km.getD 0 :=
    max_eq_right hodo
  unfold receive_telemetry on_message
  dsimp only
  rw [if_neg (by rw [h1]; exact Bool.false_ne_true),
    if_neg (by rw [h2]; exact Bool.false_ne_true), if_neg h3,
    if_neg (by rw [h4]; exact Bool.false_ne_true), if_neg (by simp), hmax1, hmax2]
  cases hca : check_alerts _ bus _ now with
  | none =>
    refine ⟨_, _, _, _, [], rfl, rfl, ?_, ?_, rfl, ?_⟩ <;> simp [hca]
  | some d2 =>
    obtain ⟨ht, _, _, hf, ea, hal⟩ := check_alerts_fields _ bus _ now d2 hca
    refine ⟨_, _, _, _, ea, rfl, rfl, ?_, ?_, rfl, ?_⟩ <;> simp [hca, ht, hf, hal]

/-- Claim C4 witness: the agreement part instantiated on a concrete valid
payload for the registered vehicle. -/
theorem claim_C4_witness :
    ∃ dh mh dm mm extra,
      receive_telemetry busA payloadFast db0 0 = Except.ok (dh, mh) ∧
      on_message busA.school_id busA payloadFast db0 0 = some (dm, mm) ∧
      dh.telemetry = dm.telemetry ∧ dh.fuel_events = dm.fuel_events ∧ mh = mm ∧
      dh.alerts = dm.alerts ++ extra :=
  claim_C4_theorem busA payloadFast db0 0 rfl rfl
    (by norm_num [payloadFast]) (by norm_num [payloadFast, busA, outOfRange])
    (by norm_num [payloadFast]) (by norm_num [payloadFast])

/-- Claim C4, counterexample: the same 100 km/h payload, same vehicle,
same prior state: delivered over HTTP it produces one alert (the speed
rule fires in `check_alerts`); delivered over MQTT it produces none — the
two transports do not make the same Alert decisions. -/
theorem claim_C4_counterexample :
    (receive_telemetry busA payloadFast db0 0).toOption.map (fun r => r.1.alerts.length) =
        some 1 ∧
      (on_message 7 busA payloadFast db0 0).map (fun r => r.1.alerts.length) = some 0 := by
  constructor
  · norm_num [receive_telemetry, payloadFast, db0, busA, outOfRange, anomalyStep,
      previousTelemetry, sortedDesc, busRows, List.insertionSort, List.orderedInsert,
      newerRow, detect_fuel_anomaly, truthy, check_alerts, mkAlert, mkMsg, Except.toOption]
  · norm_num [on_message, payloadFast, db0, busA, anomalyStep, previousTelemetry,
      sortedDesc, busRows, List.insertionSort, List.orderedInsert, newerRow,
      detect_fuel_anomaly, truthy, mkMsg]

/-- When the incoming row's timestamp is strictly after every persisted
row of its vehicle, the `offset(1)` partner produced by the descending
ordering is exactly a maximal-timestamp old row — that is, the nearest
strictly-earlier sample. -/
theorem previousTelemetry_append (db : DB) (bid : ℕ) (row : Telemetry)
    (hrow_bus : row.bus_id = bid)
    (hts : ∀ r ∈ busRows db bid, r.timestamp < row.timestamp)
    (hne : busRows db bid ≠ []) :
    ∃ prev,
      previousTelemetry { db with telemetry := db.telemetry ++ [row], seq := db.seq + 1 }
        bid = some prev ∧
      prev ∈ busRows db bid ∧
      ∀ r ∈ busRows db bid, r.timestamp ≤ prev.timestamp := by
  have hfilter :
      busRows { db with telemetry := db.telemetry ++ [row], seq := db.seq + 1 } bid =
        busRows db bid ++ [row] := by
    unfold busRows
    rw [List.filter_append]
    simp [hrow_bus]
  unfold previousTelemetry sortedDesc
  rw [hfilter]
  have hperm : List.Perm (List.insertionSort newerRow (busRows db bid ++ [row]))
      (busRows db bid ++ [row]) := List.perm_insertionSort _ _
  have hsorted : (List.insertionSort newerRow (busRows db bid ++ [row])).Sorted newerRow :=
    List.sorted_insertionSort _ _
  have hlen : 2 ≤ (List.insertionSort newerRow (busRows db bid ++ [row])).length := by
    rw [hperm.length_eq, List.length_append, List.length_singleton]
    have := List.length_pos.mpr hne
    omega
  obtain ⟨a, t, hs⟩ : ∃ a t, List.insertionSort newerRow (busRows db bid ++ [row]) = a :: t := by
    cases hx : List.insertionSort newerRow (busRows db bid ++ [row]) with
    | nil => rw [hx] at hlen; simp at hlen
    | cons a t => exact ⟨a, t, rfl⟩
  obtain ⟨b, t2, ht⟩ : ∃ b t2, t = b :: t2 := by
    cases hx : t with
    | nil => rw [hs, hx] at hlen; simp at hlen
    | cons b t2 => exact ⟨b, t2, rfl⟩
  rw [ht] at hs
  have hmem_row : row ∈ a :: b :: t2 := by
    rw [← hs]
    exact hperm.symm.subset (by simp)
  have hpw := hs ▸ hsorted
  rw [List.sorted_cons] at hpw
  obtain ⟨hhead, htail⟩ := hpw
  rw [List.sorted_cons] at htail
  obtain ⟨hhead2, _⟩ := htail
  have ha : a = row := by
    by_contra hne'
    have hrowt : row ∈ b :: t2 := by
      rcases List.mem_cons.mp hmem_row with h | h
      · exact absurd h.symm hne'
      · exact h
    have hr := hhead row hrowt
    have hal : a ∈ busRows db bid := by
      have hmem_a : a ∈ busRows db bid ++ [row] := hperm.subset (by rw [hs]; simp)
      rcases List.mem_append.mp hmem_a with h | h
      · exact h
      · exact absurd (List.mem_singleton.mp h) hne'
    have hlt := hts a hal
    rcases hr with h | h
    · exact absurd (lt_trans h hlt) (lt_irrefl _)
    · exact absurd h.1 (ne_of_lt hlt)
  subst ha
  have htperm : List.Perm (b :: t2) (busRows db bid) := by
    have h1 : List.Perm (a :: b :: t2) (a :: busRows db bid) :=
      (hs ▸ hperm).trans (List.perm_append_singleton a (busRows db bid))
    exact (List.perm_cons a).mp h1
  have hbmem : b ∈ busRows db bid := htperm.subset (by simp)
  refine ⟨b, ?_, hbmem, ?_⟩
  · rw [hs]; rfl
  · intro r hr
    rcases List.mem_cons.mp (htperm.symm.subset hr) with h | h
    · exact le_of_eq (by rw [h])
    · rcases hhead2 r h with hlt | heq
      · exact le_of_lt hlt
      · exact le_of_eq heq.1.symm

/-- Claim C6 (amended): any sample that passes validation is accepted and
stored whatever its timestamp is (first part, no ordering hypothesis);
and the classification partner is the second row of the
timestamp-descending order of all rows including the new one — which
coincides with the nearest strictly-earlier sample precisely when the new
sample's timestamp is strictly after every persisted row of its vehicle
(second part); for an out-of-order sample the partner can instead be the
new row itself or a later row (see the counterexample). -/
theorem claim_C6_theorem :
    (∀ (bus : Bus) (data : Payload) (db : DB) (now : ℚ),
      outOfRange data.latitude (-90) 90 = false →
      outOfRange data.longitude (-180) 180 = false →
      ¬(data.speed_kmh.getD 0 < 0 ∨ 200 < data.speed_kmh.getD 0) →
      outOfRange data.fuel_level_liters 0 (bus.fuel_tank_capacity * (11/10)) = false →
      ∃ d m, receive_telemetry bus data db now = Except.ok (d, m) ∧
        d.telemetry.length = db.telemetry.length + 1) ∧
    (∀ (db : DB) (bid : ℕ) (row : Telemetry),
      row.bus_id = bid →
      (∀ r ∈ busRows db bid, r.timestamp < row.timestamp) →
      busRows db bid ≠ [] →
      ∃ prev,
        previousTelemetry { db with telemetry := db.telemetry ++ [row], seq := db.seq + 1 }
          bid = some prev ∧
        prev ∈ busRows db bid ∧
        ∀ r ∈ busRows db bid, r.timestamp ≤ prev.timestamp) := by
  constructor
  · intro bus data db now h1 h2 h3 h4
    unfold receive_telemetry
    dsimp only
    rw [if_neg (by rw [h1]; exact Bool.false_ne_true),
      if_neg (by rw [h2]; exact Bool.false_ne_true), if_neg h3,
      if_neg (by rw [h4]; exact Bool.false_ne_true)]
    obtain ⟨ht2, _, _, _, _⟩ := anomalyStep_fields bus
      ⟨db.seq, bus.id, now, data.latitude, data.longitude, data.speed_kmh.getD 0,
        data.fuel_level_liters, max 0 (data.fuel_flow_lph.getD 0),
        max 0 (data.odometer_km.getD 0), data.engine_on.getD false,
        data.heading, data.altitude⟩
      { db with telemetry := db.telemetry ++ [⟨db.seq, bus.id, now, data.latitude,
          data.longitude, data.speed_kmh.getD 0, data.fuel_level_liters,
          max 0 (data.fuel_flow_lph.getD 0), max 0 (data.odometer_km.getD 0),
          data.engine_on.getD false, data.heading, data.altitude⟩], seq := db.seq + 1 } now
    cases hca : check_alerts _ bus _ now with
    | none =>
      refine ⟨_, _, rfl, ?_⟩
      simp only [hca, Option.getD_none]
      rw [ht2]
      simp
    | some d2 =>
      refine ⟨_, _, rfl, ?_⟩
      simp only [hca, Option.getD_some]
      rw [(check_alerts_fields _ bus _ now d2 hca).1, ht2]
      simp
  · exact previousTelemetry_append

/-- Claim C6, counterexample: with persisted samples at t=10 (fuel 50) and
t=20, a sample at t=15 (fuel 35) is stored (3 rows) yet yields NO fuel
event, because the `offset(1)` partner of the descending order is the new
row itself rather than the nearest strictly-earlier sample (t=10), against
which the classifier would have emitted THEFT (fuel 50 → 35, stationary,
engine off). -/
theorem claim_C6_counterexample :
    (receive_telemetry busA payloadC6 dbC6 15).toOption.map
        (fun r => (r.1.fuel_events.length, r.1.telemetry.length)) = some (0, 3) ∧
      previousTelemetry ⟨[busA], dbC6.telemetry ++ [rowC6], [], [], 3⟩ 1 = some rowC6 ∧
      detect_fuel_anomaly (mkT 0 1 10 0 (some 50) false 0) rowC6 busA =
        some ⟨.THEFT, 15, .CRITICAL⟩ := by
  refine ⟨?_, ?_, ?_⟩
  · norm_num [receive_telemetry, payloadC6, dbC6, busA, outOfRange, anomalyStep,
      previousTelemetry, sortedDesc, busRows, List.insertionSort, List.orderedInsert,
      newerRow, detect_fuel_anomaly, truthy, check_alerts, mkT, mkMsg, Except.toOption]
  · norm_num [previousTelemetry, sortedDesc, busRows, dbC6, rowC6, mkT,
      List.insertionSort, List.orderedInsert, newerRow]
  · norm_num [detect_fuel_anomaly, truthy, rowC6, mkT]

/-- Claim C6 witness: both parts at concrete inputs — a validated payload
is accepted and stored, and for an in-order row the partner is the
(unique) strictly-earlier persisted sample. -/
theorem claim_C6_witness :
    (∃ d m, receive_telemetry busA payloadLow db0 5 = Except.ok (d, m) ∧
      d.telemetry.length = db0.telemetry.length + 1) ∧
    (∃ prev,
      previousTelemetry ⟨dbC6w.buses, dbC6w.telemetry ++ [rowC6w], dbC6w.fuel_events, dbC6w.alerts, dbC6w.seq + 1⟩ 1 = some prev ∧
      prev ∈ busRows dbC6w 1 ∧
      ∀ r ∈ busRows dbC6w 1, r.timestamp ≤ prev.timestamp) := by
  constructor
  · exact claim_C6_theorem.1 busA payloadLow db0 5 rfl rfl
      (by norm_num [payloadLow]) (by norm_num [payloadLow, busA, outOfRange])
  · exact claim_C6_theorem.2 dbC6w 1 rowC6w rfl
      (by
        intro r hr
        simp only [busRows, dbC6w, List.filter] at hr
        norm_num [mkT] at hr
        rw [hr]
        norm_num [rowC6w, mkT])
      (by norm_num [busRows, dbC6w, mkT])

/-- A vehicle's latest sample only depends on the telemetry table. -/
theorem latestTelemetry_congr {d1 d2 : DB} (bid : ℕ) (h : d1.telemetry = d2.telemetry) :
    latestTelemetry d1 bid = latestTelemetry d2 bid := by
  unfold latestTelemetry sortedDesc busRows
  rw [h]

/-- One offline-monitor iteration never touches telemetry or the vehicle
registry. -/
theorem offlineStep_telemetry_buses (now : ℚ) (d : DB) (b : Bus) :
    (offlineStep now d b).telemetry = d.telemetry ∧ (offlineStep now d b).buses = d.buses := by
  unfold offlineStep
  split
  · exact ⟨rfl, rfl⟩
  · split_ifs <;> exact ⟨rfl, rfl⟩

/-- An iteration for a different vehicle leaves our vehicle's
"Bus Offline" alerts untouched. -/
theorem offlineStep_filter_other (now : ℚ) (d : DB) (b : Bus) (bid : ℕ) (h : b.id ≠ bid) :
    (offlineStep now d b).alerts.filter (offlinePred bid) =
      d.alerts.filter (offlinePred bid) := by
  unfold offlineStep
  split
  · rfl
  · split_ifs
    · simp [List.filter_append, offlinePred, mkAlert, h]
    · rfl
    · rfl

/-- While an unacknowledged "Bus Offline" alert exists for the vehicle,
its own iteration is a no-op (the dedup lookup suppresses the insert). -/
theorem offlineStep_nonempty_id (now : ℚ) (d : DB) (b : Bus)
    (h : d.alerts.filter (offlinePred b.id) ≠ []) :
    offlineStep now d b = d := by
  unfold offlineStep
  split
  · rfl
  · split_ifs with h1 h2
    · exact absurd (by simpa using h2) h
    · rfl
    · rfl

/-- The whole monitor run never touches telemetry or the registry. -/
theorem off_fold_telemetry (now : ℚ) (l : List Bus) :
    ∀ d : DB, ((l.foldl (offlineStep now) d).telemetry = d.telemetry ∧
      (l.foldl (offlineStep now) d).buses = d.buses) := by
  induction l with
  | nil => intro d; exact ⟨rfl, rfl⟩
  | cons b t ih =>
    intro d
    simp only [List.foldl_cons]
    obtain ⟨ih1, ih2⟩ := ih (offlineStep now d b)
    have h := offlineStep_telemetry_buses now d b
    exact ⟨ih1.trans h.1, ih2.trans h.2⟩

/-- A run over vehicles other than ours leaves our vehicle's
"Bus Offline" alerts untouched. -/
theorem off_fold_other (now : ℚ) (bid : ℕ) (l : List Bus) (hl : ∀ b ∈ l, b.id ≠ bid) :
    ∀ d : DB, (l.foldl (offlineStep now) d).alerts.filter (offlinePred bid) =
      d.alerts.filter (offlinePred bid) := by
  induction l with
  | nil => intro d; rfl
  | cons b t ih =>
    intro d
    simp only [List.foldl_cons]
    rw [ih (fun b' hb' => hl b' (List.mem_cons_of_mem b hb')) (offlineStep now d b),
      offlineStep_filter_other now d b bid (hl b (List.mem_cons_self b t))]

/-- Idempotence core: while an unacknowledged "Bus Offline" alert exists
for the vehicle, a whole monitor run leaves its alert set unchanged. -/
theorem off_fold_dedup (now : ℚ) (bid : ℕ) (l : List Bus) :
    ∀ d : DB, d.alerts.filter (offlinePred bid) ≠ [] →
      (l.foldl (offlineStep now) d).alerts.filter (offlinePred bid) =
        d.alerts.filter (offlinePred bid) := by
  induction l with
  | nil => intro d _; rfl
  | cons b t ih =>
    intro d hd
    simp only [List.foldl_cons]
    by_cases hb : b.id = bid
    · have hstep : offlineStep now d b = d :=
        offlineStep_nonempty_id now d b (by rw [hb]; exact hd)
      rw [hstep]
      exact ih d hd
    · have h := offlineStep_filter_other now d b bid hb
      rw [ih (offlineStep now d b) (by rw [h]; exact hd), h]

/-- Creation core: when no unacknowledged "Bus Offline" alert exists and
the vehicle's newest sample is more than an hour old, a run over a vehicle
list containing our vehicle exactly once leaves exactly one fresh WARNING
"Bus Offline" alert for it. -/
theorem off_fold_create (now : ℚ) (bus : Bus) (lt : Telemetry)
    (hstale : 3600 < now - lt.timestamp) :
    ∀ (l : List Bus) (d : DB),
      latestTelemetry d bus.id = some lt →
      l.filter (fun b => b.id == bus.id) = [bus] →
      d.alerts.filter (offlinePred bus.id) = [] →
      (l.foldl (offlineStep now) d).alerts.filter (offlinePred bus.id) =
        [mkAlert bus.id .WARNING "Bus Offline" now] := by
  intro l
  induction l with
  | nil => intro d _ hfil _; simp at hfil
  | cons b t ih =>
    intro d hlt hfil hempty
    simp only [List.foldl_cons]
    by_cases hb : b.id = bus.id
    · have hpred : (b.id == bus.id) = true := by simp [hb]
      simp only [List.filter_cons, hpred, if_true, List.cons.injEq] at hfil
      obtain ⟨rfl, hfil2⟩ := hfil
      have hstep : offlineStep now d b =
          { d with alerts := d.alerts ++ [mkAlert b.id .WARNING "Bus Offline" now] } := by
        unfold offlineStep
        simp [hlt, hstale, hempty]
      rw [hstep]
      have ht : ∀ b' ∈ t, b'.id ≠ b.id := by
        intro b' hb' heq
        have hmem : b' ∈ t.filter (fun x => x.id == b.id) :=
          List.mem_filter.mpr ⟨hb', by simp [heq]⟩
        rw [hfil2] at hmem
        simp at hmem
      rw [off_fold_other now b.id t ht _]
      simp [List.filter_append, hempty, offlinePred, mkAlert]
    · have hpred : (b.id == bus.id) = false := by simp [hb]
      simp only [List.filter_cons, hpred, Bool.false_eq_true, if_false] at hfil
      have hstep2 := offlineStep_filter_other now d b bus.id hb
      exact ih (offlineStep now d b)
        ((latestTelemetry_congr bus.id (offlineStep_telemetry_buses now d b).1).trans hlt)
        hfil (by rw [hstep2]; exact hempty)

/-- Claim C7: for an active vehicle (present once in the registry) whose
newest sample is over an hour old and with no unacknowledged "Bus Offline"
alert, one monitor run leaves exactly one unacknowledged "Bus Offline"
alert — a fresh WARNING one — and any re-run while it is unacknowledged
adds none: the alert set for that vehicle is exactly the same singleton. -/
theorem claim_C7_theorem (db : DB) (now : ℚ) (bus : Bus) (lt : Telemetry)
    (hact : (db.buses.filter (fun b => b.is_active)).filter (fun b => b.id == bus.id) = [bus])
    (hlt : latestTelemetry db bus.id = some lt)
    (hstale : 3600 < now - lt.timestamp)
    (hempty : db.alerts.filter (offlinePred bus.id) = []) :
    (check_bus_offline db now).alerts.filter (offlinePred bus.id) =
      [mkAlert bus.id .WARNING "Bus Offline" now] ∧
    ∀ now2 : ℚ,
      (check_bus_offline (check_bus_offline db now) now2).alerts.filter (offlinePred bus.id) =
        [mkAlert bus.id .WARNING "Bus Offline" now] := by
  have h1 : (check_bus_offline db now).alerts.filter (offlinePred bus.id) =
      [mkAlert bus.id .WARNING "Bus Offline" now] :=
    off_fold_create now bus lt hstale (db.buses.filter (fun b => b.is_active)) db hlt hact hempty
  refine ⟨h1, ?_⟩
  intro now2
  have hbuses : (check_bus_offline db now).buses = db.buses :=
    (off_fold_telemetry now _ db).2
  have h2 : check_bus_offline (check_bus_offline db now) now2 =
      ((check_bus_offline db now).buses.filter (fun b => b.is_active)).foldl
        (offlineStep now2) (check_bus_offline db now) := rfl
  rw [h2, hbuses,
    off_fold_dedup now2 bus.id _ (check_bus_offline db now) (by rw [h1]; simp), h1]

/-- Claim C7 witness: at time 3700 s (sample at 0 s, 61 minutes earlier)
one run creates the single WARNING alert, and a re-run 5 minutes later
adds nothing. -/
theorem claim_C7_witness :
    (check_bus_offline dbOff 3700).alerts.filter (offlinePred busA.id) =
      [mkAlert busA.id .WARNING "Bus Offline" 3700] ∧
    (check_bus_offline (check_bus_offline dbOff 3700) 4000).alerts.filter
        (offlinePred busA.id) = [mkAlert busA.id .WARNING "Bus Offline" 3700] := by
  have h := claim_C7_theorem dbOff 3700 busA (mkT 0 1 0 0 (some 50) false 0)
    rfl rfl (by norm_num [mkT]) rfl
  exact ⟨h.1, h.2 4000⟩

/-- One monitor iteration reads nothing of the vehicle row but its id. -/
theorem offlineStep_only_id (now : ℚ) (d : DB) (b b' : Bus) (h : b.id = b'.id) :
    offlineStep now d b = offlineStep now d b' := by
  unfold offlineStep
  rw [h]

/-- One monitor iteration commutes with rewriting `last_seen` columns:
the iteration reads telemetry and alerts and writes alerts, none of which
`mapLastSeen` touches. -/
theorem offlineStep_mapLS (now : ℚ) (f : ℕ → Option ℚ) (d : DB) (b : Bus) :
    offlineStep now (mapLastSeen f d) b = mapLastSeen f (offlineStep now d b) := by
  unfold offlineStep
  have hlt : latestTelemetry (mapLastSeen f d) b.id = latestTelemetry d b.id := rfl
  have halerts : (mapLastSeen f d).alerts = d.alerts := rfl
  rw [hlt, halerts]
  cases latestTelemetry d b.id with
  | none => rfl
  | some latest =>
    dsimp only
    split_ifs with h1 h2 <;> rfl

/-- The commutation extended to a run over a vehicle list. -/
theorem off_fold_mapLS (now : ℚ) (f : ℕ → Option ℚ) (l : List Bus) :
    ∀ d : DB,
      (l.map (fun b =>
          (⟨b.id, b.school_id, b.is_active, b.fuel_tank_capacity, f b.id⟩ : Bus))).foldl
        (offlineStep now) (mapLastSeen f d) =
      mapLastSeen f (l.foldl (offlineStep now) d) := by
  induction l with
  | nil => intro d; rfl
  | cons b t ih =>
    intro d
    simp only [List.map_cons, List.foldl_cons]
    rw [offlineStep_only_id now (mapLastSeen f d)
        ⟨b.id, b.school_id, b.is_active, b.fuel_tank_capacity, f b.id⟩ b rfl,
      offlineStep_mapLS now f d b]
    exact ih (offlineStep now d b)

/-- Claim C8 (amended): the ingestion path never writes the vehicle
registry at all — in particular `last_seen` is never updated on an
accepted sample — and the Offline Monitor never reads `last_seen`: its
output is oblivious to arbitrary rewrites of every vehicle's `last_seen`
column, because staleness is decided from the newest persisted telemetry
row. -/
theorem claim_C8_theorem :
    (∀ (bus : Bus) (data : Payload) (db : DB) (now : ℚ) (d : DB) (m : UpdateMsg),
      receive_telemetry bus data db now = Except.ok (d, m) → d.buses = db.buses) ∧
    (∀ (db : DB) (now : ℚ) (f : ℕ → Option ℚ),
      check_bus_offline (mapLastSeen f db) now = mapLastSeen f (check_bus_offline db now)) := by
  constructor
  · intro bus data db now d m h
    unfold receive_telemetry at h
    dsimp only at h
    split_ifs at h with h1 h2 h3 h4
    obtain ⟨_, hb2, _, _, _⟩ := anomalyStep_fields bus
      ⟨db.seq, bus.id, now, data.latitude, data.longitude, data.speed_kmh.getD 0,
        data.fuel_level_liters, max 0 (data.fuel_flow_lph.getD 0),
        max 0 (data.odometer_km.getD 0), data.engine_on.getD false,
        data.heading, data.altitude⟩
      { db with telemetry := db.telemetry ++ [⟨db.seq, bus.id, now, data.latitude,
          data.longitude, data.speed_kmh.getD 0, data.fuel_level_liters,
          max 0 (data.fuel_flow_lph.getD 0), max 0 (data.odometer_km.getD 0),
          data.engine_on.getD false, data.heading, data.altitude⟩], seq := db.seq + 1 } now
    rw [Except.ok.injEq, Prod.mk.injEq] at h
    obtain ⟨hd, hm⟩ := h
    rw [← hd]
    cases hca : check_alerts _ bus _ now with
    | none => simpa [hca] using hb2
    | some d2 =>
      have := (check_alerts_fields _ bus _ now d2 hca).2.1
      simpa [hca, this] using hb2
  · intro db now f
    have hfb : (mapLastSeen f db).buses.filter (fun b => b.is_active) =
        (db.buses.filter (fun b => b.is_active)).map (fun b =>
          (⟨b.id, b.school_id, b.is_active, b.fuel_tank_capacity, f b.id⟩ : Bus)) := by
      unfold mapLastSeen
      rw [List.filter_map]
      rfl
    have h2 : check_bus_offline (mapLastSeen f db) now =
        ((mapLastSeen f db).buses.filter (fun b => b.is_active)).foldl
          (offlineStep now) (mapLastSeen f db) := rfl
    rw [h2, hfb, off_fold_mapLS now f _ db]
    rfl

/-- Claim C8, counterexample: an accepted sample at time 1000 s leaves the
vehicle's `last_seen` at its old value 5 s — the claimed update to the
sample's time never happens. -/
theorem claim_C8_counterexample :
    (receive_telemetry busLS payloadLow dbLS 1000).toOption.map
        (fun r => r.1.buses.map (fun b => b.last_seen)) = some [some 5] ∧
      (5 : ℚ) ≠ 1000 := by
  constructor
  · norm_num [receive_telemetry, payloadLow, dbLS, busLS, outOfRange, anomalyStep,
      previousTelemetry, sortedDesc, busRows, List.insertionSort, List.orderedInsert,
      newerRow, detect_fuel_anomaly, truthy, check_alerts, mkAlert, mkMsg, Except.toOption]
  · norm_num

/-- Claim C8 witness: the concrete accepted ingestion keeps the registry
row intact, and the monitor's output commutes with a concrete `last_seen`
rewrite. -/
theorem claim_C8_witness :
    receive_telemetry busLS payloadLow dbLS 1000 = Except.ok (dbLSafter, msgLS) ∧
      dbLSafter.buses = dbLS.buses ∧
      check_bus_offline (mapLastSeen (fun _ => some 42) dbLS) 0 =
        mapLastSeen (fun _ => some 42) (check_bus_offline dbLS 0) := by
  have hrun : receive_telemetry busLS payloadLow dbLS 1000 = Except.ok (dbLSafter, msgLS) := by
    norm_num [receive_telemetry, payloadLow, dbLS, busLS, dbLSafter, rowLS, msgLS,
      outOfRange, anomalyStep, previousTelemetry, sortedDesc, busRows,
      List.insertionSort, List.orderedInsert, newerRow, detect_fuel_anomaly, truthy,
      check_alerts, mkAlert, mkMsg]
  exact ⟨hrun, claim_C8_theorem.1 busLS payloadLow dbLS 1000 dbLSafter msgLS hrun,
    claim_C8_theorem.2 dbLS 0 (fun _ => some 42)⟩

end Quanta
